import Mathlib

/-
Verification of the bridginghub pipeline core against its specification.

The Python sources are shallowly embedded:
* `src/module/storage/default_storage.py` (`DefaultStorageModule`),
* `src/bridging_hub_module.py` (`BridgingHubBaseModule.listen`,
  `StorageBaseModule.dispatch`, `BridgingHubModuleRegistry`),
* `src/main.py` (`load_module`).

CPython dictionaries are modelled as insertion-ordered association lists,
the file system as an insertion-ordered map from paths to file contents,
and raised exceptions as `Except` values tagged with the exception class.
File writes can be made to fail through an explicit `ok` oracle, which
models `open`/`json.dump` raising `OSError` for a particular path.
-/

set_option maxHeartbeats 1000000

/-- A record: a field-name to string-value map (`dict[str, str]`),
modelled as an insertion-ordered association list. -/
abbrev Record := List (String × String)

/-- A record batch: record-id to record (`dict[str, dict[str, str]]`). -/
abbrev Batch := List (String × Record)

/-- Python `d[key] = val` on a `dict`: update in place when the key is
present (keeping its position), append otherwise. -/
def recSet (r : Record) (key val : String) : Record :=
  if r.any (fun p => p.1 == key) then
    r.map (fun p => if p.1 == key then (p.1, val) else p)
  else r ++ [(key, val)]

/-- Python `d[key]` on a `dict`, as an `Option` (a `none` corresponds to a
`KeyError` at the call site). -/
def recGet? (r : Record) (key : String) : Option String :=
  (r.find? (fun p => p.1 == key)).map (fun p => p.2)

/-- A path on disk, split into the directory part (as resolved by
`_test_dir`, including any date sub-directory) and the file base name
produced by `_name_file`. Two paths are equal when both parts are. -/
structure FPath where
  dir : String
  base : String
deriving Repr, DecidableEq

/-- The file system: full path to file content, in creation order
(the order in which a directory scan enumerates the entries). -/
structure FS where
  files : List (FPath × Record)
deriving Repr, DecidableEq

/-- Writing a file: overwrite in place when the path exists, append a new
directory entry otherwise. -/
def FS.write (fs : FS) (p : FPath) (v : Record) : FS :=
  if fs.files.any (fun e => e.1 == p) then
    ⟨fs.files.map (fun e => if e.1 == p then (e.1, v) else e)⟩
  else ⟨fs.files ++ [(p, v)]⟩

/-- Python `Path.unlink`: remove a path from the file system. -/
def FS.delete (fs : FS) (p : FPath) : FS :=
  ⟨fs.files.filter (fun e => e.1 != p)⟩

/-- Whether a path currently exists. -/
def FS.exists? (fs : FS) (p : FPath) : Bool :=
  fs.files.any (fun e => e.1 == p)

/-- Reading a file (`open(p); json.load`). -/
def FS.read? (fs : FS) (p : FPath) : Option Record :=
  (fs.files.find? (fun e => e.1 == p)).map (fun e => e.2)

/-- File-system events, in the order the source performs them. -/
inductive Ev where
  | write (p : FPath)
  | delete (p : FPath)
deriving Repr, DecidableEq

/-- The exception classes raised by the embedded code, tagged with the
message (`DirectoryAccessException`, `FileWriteException`,
`StorageModuleException`, `BrokenConfigException`, `NoSuchModuleException`,
`DuplicatedModuleException`, `ModuleLoaderException` from the repository,
plus the Python built-ins `KeyError`, `IndexError`, `TypeError`,
`AttributeError`, `AssertionError`). -/
inductive PyErr where
  | keyErr (msg : String)
  | indexErr (msg : String)
  | typeErr (msg : String)
  | attributeErr (msg : String)
  | assertionErr (msg : String)
  | brokenConfig (msg : String)
  | noSuchModule (msg : String)
  | duplicatedModule (msg : String)
  | moduleLoader (msg : String)
  | directoryAccess (msg : String)
  | fileWrite (msg : String)
  | storageModule (msg : String)
deriving Repr, DecidableEq

/-- The `_custom_name` entries consulted by the storage module
(defaults from `BridgingHubBaseModule.__init__`: the status field is
named "bHstatus" and the timestamp field "timestamp"). -/
structure CustomName where
  bHstatus_name : String := "bHstatus"
  timestamp_name : String := "timestamp"
deriving Repr, DecidableEq

/-- The `_action_detail` keys consulted by `DefaultStorageModule`:
the configured "cache", "junk" and "archive" directories. `none` models
both an absent key and a falsy (empty) value, matching
`if dir_type in self._action_detail and self._action_detail[dir_type]`. -/
structure StorageDetail where
  cache : Option String := none
  junk : Option String := none
  archive : Option String := none
deriving Repr, DecidableEq

/-- Python `Path.is_absolute()` for POSIX paths. -/
def isAbsolutePath (s : String) : Bool :=
  s.data.head? == some '/'

namespace DefaultStorageModule

/-- Embeds `DefaultStorageModule._test_dir`: if the directory kind is configured
and truthy, require an absolute path (else `DirectoryAccessException`) and
return the prepared directory with the optional sub-directory appended;
return `none` when the kind is not configured. Directory creation
(`mkdir`) always succeeds in the model. -/
def test_dir (cfgDir : Option String) (sub_dir : String) :
    Except PyErr (Option String) :=
  match cfgDir with
  | none => .ok none
  | some dir =>
    if isAbsolutePath dir then
      .ok (some (if sub_dir.isEmpty then dir else dir ++ "/" ++ sub_dir))
    else
      .error (.directoryAccess "Please configure an absolute path for storage.")

/-- Embeds `DefaultStorageModule._name_file`:
`Path(dir) / f"(t)_(message_id).json"` where `t` is the record's
timestamp field; a missing timestamp field raises `KeyError`. -/
def name_file (cn : CustomName) (dir : String) (message_id : String)
    (message_content : Record) : Except PyErr FPath :=
  match recGet? message_content cn.timestamp_name with
  | some t => .ok ⟨dir, t ++ "_" ++ message_id ++ ".json"⟩
  | none => .error (.keyErr cn.timestamp_name)

/-- Loop body of `DefaultStorageModule._write_files`: for each record,
stamp the status field, derive the file name and write the file; any
failure raises `FileWriteException` at once, leaving the files written so
far on disk and abandoning the remaining records. -/
def write_files_go (cn : CustomName) (ok : FPath → Bool) (dir : String)
    (status : String) :
    Batch → Batch → FS → List Ev → (Except PyErr Batch) × FS × List Ev
  | [], acc, fs, tr => (.ok acc, fs, tr)
  | (k, v) :: rest, acc, fs, tr =>
    let v' := recSet v cn.bHstatus_name status
    match name_file cn dir k v' with
    | .error _ => (.error (.fileWrite k), fs, tr)
    | .ok p =>
      if ok p then
        write_files_go cn ok dir status rest (acc ++ [(k, v')])
          (fs.write p v') (tr ++ [.write p])
      else (.error (.fileWrite k), fs, tr)

/-- Embeds `DefaultStorageModule._write_files`. The `directory` argument is a
`Path` produced by `_test_dir` and hence always truthy, so the
`if directory:` guard of the source is always taken here. The returned
batch carries the stamped records (the source stamps the caller's
records in place and returns the ones written). -/
def write_files (cn : CustomName) (ok : FPath → Bool) (message : Batch)
    (dir : String) (status : String) (fs : FS) :
    (Except PyErr Batch) × FS × List Ev :=
  write_files_go cn ok dir status message [] fs []

/-- Embeds `DefaultStorageModule.write_cache`: write every record of the batch to
the cache directory with status "cached"; wrap any failure into
`StorageModuleException`. Without a configured cache directory the result
is the empty batch. -/
def write_cache (cn : CustomName) (detail : StorageDetail) (ok : FPath → Bool)
    (message : Batch) (fs : FS) : (Except PyErr Batch) × FS × List Ev :=
  match test_dir detail.cache "" with
  | .error _ => (.error (.storageModule "Failed to write to cache"), fs, [])
  | .ok none => (.ok [], fs, [])
  | .ok (some d) =>
    match write_files cn ok message d "cached" fs with
    | (.error _, fs1, tr) =>
      (.error (.storageModule "Failed to write to cache"), fs1, tr)
    | (.ok m, fs1, tr) => (.ok m, fs1, tr)

/-- Suffix test on strings, used to model the glob pattern. -/
def strSuffix (suffix s : String) : Bool :=
  List.isSuffixOf suffix.data s.data

/-- Whether a base name matches the glob pattern `*_(k).json`: it must end
in `_(k).json` and the part matched by `*` may not contain a path
separator. -/
def globMatch (k : String) (base : String) : Bool :=
  strSuffix ("_" ++ k ++ ".json") base &&
  !((base.data.take (base.data.length - ("_" ++ k ++ ".json").data.length)).contains '/')

/-- Python `Path(d).glob(f"*_(k).json")`: the matching paths of the cache
directory, in directory enumeration order. -/
def glob_cache (d : String) (k : String) (fs : FS) : List FPath :=
  (fs.files.filter (fun e => e.1.dir == d && globMatch k e.1.base)).map (fun e => e.1)

/-- Embeds `DefaultStorageModule._find_cached`: for every record-id of the
data-point registry (`_data[value_register_map]`), the list of matching
cache files; the id list is initialised for every expected id, so ids
without a match are present with an empty list. Without a configured
cache directory the result is the empty map. -/
def find_cached (detail : StorageDetail) (value_register_map : List String)
    (fs : FS) : Except PyErr (List (String × List FPath)) :=
  match test_dir detail.cache "" with
  | .error _ => .error (.directoryAccess "Blocked from searching cache")
  | .ok none => .ok []
  | .ok (some d) => .ok (value_register_map.map (fun k => (k, glob_cache d k fs)))

/-- Loop of `DefaultStorageModule.read_cache`: for every id of the found
map, open the first listed file (`c[k][0]`); an empty list raises
`IndexError`, re-raised as `StorageModuleException`. -/
def read_cache_go (fs : FS) :
    List (String × List FPath) → Batch → Except PyErr Batch
  | [], m => .ok m
  | (k, ps) :: rest, m =>
    match ps with
    | [] => .error (.storageModule "Could not read cache")
    | p :: _ =>
      match fs.read? p with
      | some v => read_cache_go fs rest (m ++ [(k, v)])
      | none => .error (.storageModule "Could not read cache")

/-- Embeds `DefaultStorageModule.read_cache`. -/
def read_cache (detail : StorageDetail) (value_register_map : List String)
    (fs : FS) : Except PyErr Batch :=
  match find_cached detail value_register_map fs with
  | .error _ => .error (.storageModule "Could not read cache")
  | .ok c => read_cache_go fs c []

/-- Loop of `DefaultStorageModule.clean_cache`: for each record, derive
its cache file name and unlink it; a missing file (or missing timestamp
field) raises, re-raised as `StorageModuleException`, with the files
already unlinked staying removed. -/
def clean_cache_go (cn : CustomName) (d : String) :
    Batch → Batch → FS → List Ev → (Except PyErr Batch) × FS × List Ev
  | [], m, fs, tr => (.ok m, fs, tr)
  | (k, v) :: rest, m, fs, tr =>
    match name_file cn d k v with
    | .error _ => (.error (.storageModule "Unable to clean cache"), fs, tr)
    | .ok f =>
      if fs.exists? f then
        clean_cache_go cn d rest (m ++ [(k, v)]) (fs.delete f) (tr ++ [.delete f])
      else (.error (.storageModule "Unable to clean cache"), fs, tr)

/-- Embeds `DefaultStorageModule.clean_cache`. -/
def clean_cache (cn : CustomName) (detail : StorageDetail) (message : Batch)
    (fs : FS) : (Except PyErr Batch) × FS × List Ev :=
  match test_dir detail.cache "" with
  | .error _ => (.error (.storageModule "Unable to clean cache"), fs, [])
  | .ok none => (.ok [], fs, [])
  | .ok (some d) => clean_cache_go cn d message [] fs []

/-- The partition loop of `DefaultStorageModule.store`: records with
status "failed" go to the failed map, the rest to the good map, keeping
batch order; a record without a status field raises `KeyError` (this loop
is outside the `try` of `store`, so the error propagates unwrapped). -/
def partition_by_failed (cn : CustomName) :
    Batch → Except PyErr (Batch × Batch)
  | [] => .ok ([], [])
  | (k, v) :: rest =>
    match recGet? v cn.bHstatus_name with
    | none => .error (.keyErr cn.bHstatus_name)
    | some st =>
      match partition_by_failed cn rest with
      | .error e => .error e
      | .ok (mf, m) =>
        if st == "failed" then .ok ((k, v) :: mf, m)
        else .ok (mf, (k, v) :: m)

/-- The junk/archive fallback of `store`: if only one of the two is
configured it is used for both; with neither, `store` returns early.
Result: `(junk_path, archive_path)` after the fallback. -/
def junk_archive_fallback (archive_path junk_path : Option String) :
    Option (String × String) :=
  match archive_path, junk_path with
  | some a, some j => some (j, a)
  | some a, none => some (a, a)
  | none, some j => some (j, j)
  | none, none => none

/-- The destination directories `store` resolves for a given
configuration and date: `(junk_path, archive_path)` after the fallback,
or `none` when a directory check fails or neither is configured. -/
def store_dest_paths (detail : StorageDetail) (today : String) :
    Option (String × String) :=
  match test_dir detail.archive today, test_dir detail.junk "" with
  | .ok a, .ok j => junk_archive_fallback a j
  | _, _ => none

/-- Embeds `DefaultStorageModule.store`. `today` is the formatted
`datetime.now(timezone.utc).date()` used as the archive sub-directory.
With a cache directory configured the sequence is: write the failed
records to junk, unlink their cache files, write the good records to the
archive, unlink their cache files; without one, only the two destination
writes happen. Any failure is wrapped into `StorageModuleException`,
keeping the file-system changes made up to that point. -/
def store (cn : CustomName) (detail : StorageDetail) (ok : FPath → Bool)
    (today : String) (message : Batch) (fs : FS) :
    (Except PyErr Batch) × FS × List Ev :=
  match test_dir detail.cache "" with
  | .error _ => (.error (.storageModule "A storage path issue occured"), fs, [])
  | .ok cache_path =>
  match test_dir detail.archive today with
  | .error _ => (.error (.storageModule "A storage path issue occured"), fs, [])
  | .ok archive_path =>
  match test_dir detail.junk "" with
  | .error _ => (.error (.storageModule "A storage path issue occured"), fs, [])
  | .ok junk_path =>
  match junk_archive_fallback archive_path junk_path with
  | none => (.ok [], fs, [])
  | some (junkP, archiveP) =>
  match partition_by_failed cn message with
  | .error e => (.error e, fs, [])
  | .ok (mfailed, m) =>
  match cache_path with
  | some _ =>
    match write_files cn ok mfailed junkP "broken" fs with
    | (.error _, fs1, tr1) =>
      (.error (.storageModule "Died while moving cached files to archive"), fs1, tr1)
    | (.ok wf, fs1, tr1) =>
    match clean_cache cn detail wf fs1 with
    | (.error _, fs2, tr2) =>
      (.error (.storageModule "Died while moving cached files to archive"), fs2,
        tr1 ++ tr2)
    | (.ok _, fs2, tr2) =>
    match write_files cn ok m archiveP "done" fs2 with
    | (.error _, fs3, tr3) =>
      (.error (.storageModule "Died while moving cached files to archive"), fs3,
        tr1 ++ tr2 ++ tr3)
    | (.ok m2, fs3, tr3) =>
    match clean_cache cn detail m2 fs3 with
    | (.error _, fs4, tr4) =>
      (.error (.storageModule "Died while moving cached files to archive"), fs4,
        tr1 ++ tr2 ++ tr3 ++ tr4)
    | (.ok _, fs4, tr4) => (.ok m2, fs4, tr1 ++ tr2 ++ tr3 ++ tr4)
  | none =>
    match write_files cn ok mfailed junkP "broken" fs with
    | (.error _, fs1, tr1) =>
      (.error (.storageModule "Died while writing uncached files to archive"), fs1, tr1)
    | (.ok _, fs1, tr1) =>
    match write_files cn ok m archiveP "done" fs1 with
    | (.error _, fs2, tr2) =>
      (.error (.storageModule "Died while writing uncached files to archive"), fs2,
        tr1 ++ tr2)
    | (.ok m2, fs2, tr2) => (.ok m2, fs2, tr1 ++ tr2)

end DefaultStorageModule

namespace BridgingHubBaseModule

/-- A value stored under the `module_subscription` key of an action
section: the config loader delivers either a string or a list of
segment names. -/
inductive SubscriptionVal where
  | ofStr (s : String)
  | ofList (l : List String)
deriving Repr, DecidableEq

/-- Python truthiness of `KEY_ACTION_SUBSCRIBE in self._action_detail and
self._action_detail[KEY_ACTION_SUBSCRIBE]`. -/
def subTruthy : Option SubscriptionVal → Bool
  | none => false
  | some (.ofStr s) => !s.isEmpty
  | some (.ofList l) => !l.isEmpty

/-- The driving callables a stage can hand to `listen`. -/
inductive Observer where
  | inputFn
  | outputFn
  | filterFn
  | write_buffer
  | read_buffer
  | storeFn
deriving Repr, DecidableEq

/-- Embeds `BridgingHubBaseModule.listen`: with no (or a falsy) subscription the
observer is returned for the main loop; a truthy non-list value raises
`BrokenConfigException`; for a truthy list the loop body evaluates
`BridgingHubModuleRegistry.load_module(subscription)`, which passes a
single positional argument to a class method requiring both
`segment_name` and `module_class_name` — CPython raises `TypeError` for
the missing argument before any registry code runs, so the first
iteration fails. No cycle check of any kind is performed. -/
def listen (module_subscription : Option SubscriptionVal)
    (observer : Observer) : Except PyErr (Option Observer) :=
  if subTruthy module_subscription then
    match module_subscription with
    | some (.ofList _) =>
      .error (.typeErr
        "load_module() missing 1 required positional argument: module_class_name")
    | _ =>
      .error (.brokenConfig "module_subscription MUST be a list, if defined.")
  else .ok (some observer)

end BridgingHubBaseModule

namespace StorageBaseModule

open BridgingHubBaseModule

/-- Python list indexing: out of range raises `IndexError`. -/
def pyListGet (l : List String) (i : Nat) : Except PyErr String :=
  match l.get? i with
  | some v => .ok v
  | none => .error (.indexErr "list index out of range")

/-- Python `str.split(":")`. -/
def splitOnColon (s : String) : List String :=
  (s.data.splitOn ':').map (fun cs => String.mk cs)

/-- Embeds `StorageBaseModule.dispatch`: split the configured `module_type` on
":", test whether the subtype is "buffer" (the source guards the index
with `len(mt) >= 1`, which always holds, before evaluating `mt[1]`), and
return the driving callable for the run context via `listen`. A missing
`module_type` key raises `KeyError`. -/
def dispatch (module_type : Option String)
    (module_subscription : Option SubscriptionVal) (action_name : String) :
    Except PyErr (Option Observer) := do
  let mtStr ← match module_type with
    | some s => Except.ok s
    | none => Except.error (.keyErr "module_type")
  let mt := splitOnColon mtStr
  let buffer ←
    if mt.length ≥ 1 then do
      let v ← pyListGet mt 1
      Except.ok (v == "buffer")
    else Except.ok false
  if action_name == "bridge" then
    if buffer then listen module_subscription .write_buffer
    else listen module_subscription .storeFn
  else if action_name == "input" then
    if buffer then listen module_subscription .write_buffer
    else Except.ok none
  else if action_name == "output" then
    if buffer then listen module_subscription .read_buffer
    else listen module_subscription .storeFn
  else Except.ok none

end StorageBaseModule

namespace BridgingHubModuleRegistry

/-- An instantiated stage: the class it was constructed from, its
`action_type` class attribute, and the segment name passed to the
constructor (`the_name`). -/
structure PyObj where
  className : String
  action_type : String
  the_name : String
deriving Repr, DecidableEq

/-- A Python class as far as the registry observes it: its name, its
`action_type`, whether it is a subclass of `BridgingHubBaseModule`, and
the abstract methods left unimplemented (CPython refuses to instantiate
the class while this set is non-empty). -/
structure PyClass where
  className : String
  action_type : String
  isBridgingHubBaseModule : Bool
  abstractMethods : List String
deriving Repr, DecidableEq

/-- The importable module universe: module path to the classes the module
defines. -/
structure Env where
  modules : List (String × List PyClass)
deriving Repr

/-- One `_registry` entry: `module_path`, `module_name`, and the memoized
`module_object`. -/
structure RegEntry where
  module_path : String
  module_name : String
  module_object : Option PyObj := none
deriving Repr, DecidableEq

/-- The class-level `_registry` dict: segment name to entry. -/
abbrev Registry := List (String × RegEntry)

/-- Python dict update for registry entries. -/
def regSet (reg : Registry) (k : String) (e : RegEntry) : Registry :=
  if reg.any (fun p => p.1 == k) then
    reg.map (fun p => if p.1 == k then (p.1, e) else p)
  else reg ++ [(k, e)]

/-- Python `import_module(module_path)`; a missing module raises
`ModuleNotFoundError`, which `load_module` wraps into
`NoSuchModuleException` inside its `try` block. -/
def import_module (env : Env) (path : String) : Except PyErr (List PyClass) :=
  match env.modules.lookup path with
  | some cls => .ok cls
  | none => .error (.noSuchModule "Module not found.")

/-- The call `module_class(segment_name)`: CPython `ABCMeta` raises `TypeError`
when abstract methods remain unimplemented; otherwise the constructor
runs and records the segment name. -/
def instantiate_class (c : PyClass) (segment_name : String) :
    Except PyErr PyObj :=
  if c.abstractMethods.isEmpty then
    .ok ⟨c.className, c.action_type, segment_name⟩
  else
    .error (.typeErr "Cannot instantiate abstract class")

/-- Embeds `BridgingHubModuleRegistry.load_module`: look the segment up (missing
segment raises `NoSuchModuleException`); on the first access import the
registered path, resolve the requested class name (`getattr` raises
`AttributeError`, outside the `try`, when the symbol is missing), verify
it subclasses `BridgingHubBaseModule` (else `NoSuchModuleException`),
instantiate and memoize it; afterwards return the memoized instance. -/
def load_module (env : Env) (reg : Registry)
    (segment_name module_class_name : String) :
    Registry × Except PyErr PyObj :=
  match reg.lookup segment_name with
  | none => (reg, .error (.noSuchModule "There is no module registered by that name."))
  | some entry =>
    match entry.module_object with
    | some obj => (reg, .ok obj)
    | none =>
      match import_module env entry.module_path with
      | .error e => (reg, .error e)
      | .ok classes =>
        match classes.find? (fun c => c.className == module_class_name) with
        | none => (reg, .error (.attributeErr module_class_name))
        | some c =>
          if c.isBridgingHubBaseModule then
            match instantiate_class c segment_name with
            | .error e => (reg, .error e)
            | .ok obj =>
              (regSet reg segment_name { entry with module_object := some obj },
                .ok obj)
          else
            (reg, .error (.noSuchModule "An incompatible module was registered."))

/-- Embeds `BridgingHubModuleRegistry.register_module`: when the segment name is
new, record the path and class name; in every case delegate to
`load_module`. An already-registered segment name keeps its original
target, whatever the new arguments say, and no exception is raised for
the mismatch. -/
def register_module (env : Env) (reg : Registry)
    (segment_name module_class_name module_path : String) :
    Registry × Except PyErr PyObj :=
  let reg' :=
    if reg.any (fun p => p.1 == segment_name) then reg
    else reg ++ [(segment_name, ⟨module_path, module_class_name, none⟩)]
  load_module env reg' segment_name module_class_name

/-- Methods declared `@abstractmethod` in `BridgingHubBaseModule`. -/
def bridgingHubBaseModule_abstract : List String :=
  ["dispatch", "input", "output"]

/-- Methods `StorageBaseModule` defines concretely. -/
def storageBase_defined : List String :=
  ["dispatch", "input", "output"]

/-- Methods declared `@abstractmethod` in `StorageBaseModule`. -/
def storageBase_declared_abstract : List String :=
  ["write_buffer", "read_buffer", "clean_buffer", "store"]

/-- Public methods `DefaultStorageModule` defines concretely. -/
def defaultStorage_defined : List String :=
  ["write_cache", "read_cache", "clean_cache", "store"]

/-- The abstract methods still unimplemented in `DefaultStorageModule`,
computed the way `ABCMeta` does: abstract methods inherited from the
bases minus the overrides, plus newly declared abstract methods, minus
what the class itself defines. -/
def defaultStorage_abstractMethods : List String :=
  (bridgingHubBaseModule_abstract.filter
      (fun nm => !(storageBase_defined.contains nm)) ++
    storageBase_declared_abstract).filter
    (fun nm => !(defaultStorage_defined.contains nm))

/-- The class `DefaultStorageModule` as the registry sees it. -/
def defaultStorageClass : PyClass :=
  ⟨"DefaultStorageModule", "storage", true, defaultStorage_abstractMethods⟩

/-- An import universe holding exactly the default storage module at its
repository location. -/
def envDefaultStorage : Env :=
  ⟨[("module.storage.default_storage", [defaultStorageClass])]⟩

end BridgingHubModuleRegistry

namespace Main

/-- A value of an action section of the configuration: either still a
file-name string or the loaded sub-mapping (string-valued, as far as
`load_module` reads it). -/
inductive ConfigVal where
  | str (s : String)
  | dict (d : List (String × String))
deriving Repr, DecidableEq

/-- The class attributes of `BridgingHubBaseModule`, name to string
value. `main.load_module` reads `KEY_ACTION_MODULE_NAME` and
`KEY_ACTION_MODULE_PATH`, neither of which exists — the class defines
`KEY_MODULE_NAME` and `KEY_MODULE_PATH` instead — so the attribute access
raises `AttributeError`. -/
def bridgingHubBaseModuleAttrs : List (String × String) :=
  [("KEY_BRIDGE", "bridge"), ("KEY_CLEANUP", "cleanup"),
   ("KEY_INPUT", "input"), ("KEY_OUTPUT", "output"),
   ("KEY_FILTER", "filter"), ("KEY_STORAGE", "storage"),
   ("KEY_DATA", "_data"),
   ("KEY_MODULE_NAME", "module_class_name"),
   ("KEY_MODULE_PATH", "module_path"),
   ("KEY_MODULE_TYPE", "module_type"),
   ("KEY_TYPE_SPLIT", ":"),
   ("KEY_ACTION_SUBSCRIBE", "module_subscription"),
   ("KEY_BH_STATUS_NAME", "bHstatus_name"),
   ("KEY_DATA_VALUE_MAP", "value_register_map"),
   ("KEY_GEOHASH_NAME", "geohash_name"),
   ("KEY_ID_NAME", "id_name"),
   ("KEY_LOCATION_NAME", "location_name"),
   ("KEY_TIMESTAMP_NAME", "timestamp_name"),
   ("KEY_DATETIME_NAME", "datetime_name"),
   ("KEY_DATETIME_FORMAT_NAME", "datetime_format_name"),
   ("KEY_TYPE_NAME", "type_name"),
   ("KEY_VALUE_NAME", "value_name"),
   ("KEY_UNIT_NAME", "unit_name"),
   ("DEFAULT_ACTION_MODULE_PATH", "module")]

/-- Python `getattr(BridgingHubBaseModule, name)`: a missing attribute raises
`AttributeError`. -/
def getattrBHBM (name : String) : Except PyErr String :=
  match bridgingHubBaseModuleAttrs.lookup name with
  | some v => .ok v
  | none => .error (.attributeErr name)

/-- The `except (AssertionError, DuplicatedModuleException,
NoSuchModuleException, BrokenConfigException)` clause of
`main.load_module`: these four kinds are re-raised as
`ModuleLoaderException`; every other exception propagates unchanged. -/
def wrapLoaderErr : PyErr → PyErr
  | .assertionErr m => .moduleLoader m
  | .duplicatedModule m => .moduleLoader m
  | .noSuchModule m => .moduleLoader m
  | .brokenConfig m => .moduleLoader m
  | e => e

/-- The `try` body of `main.load_module`: read the action section
(`KeyError` when absent), assert it is a dict, read the two class
attributes naming the config keys (`AttributeError`: they do not exist),
read module name and path, register the module and check its
`action_type` matches the requested action. `configure` raises only
`BrokenConfigException` and is not modelled beyond that check. -/
def load_module_body (env : BridgingHubModuleRegistry.Env)
    (reg : BridgingHubModuleRegistry.Registry)
    (config : List (String × ConfigVal)) (action_name segment_name : String) :
    BridgingHubModuleRegistry.Registry × Except PyErr BridgingHubModuleRegistry.PyObj :=
  match config.lookup action_name with
  | none => (reg, .error (.keyErr action_name))
  | some (.str _) =>
    (reg, .error (.assertionErr "Expected action_config to be a dictionary"))
  | some (.dict acd) =>
    match getattrBHBM "KEY_ACTION_MODULE_NAME" with
    | .error e => (reg, .error e)
    | .ok nameKey =>
      match getattrBHBM "KEY_ACTION_MODULE_PATH" with
      | .error e => (reg, .error e)
      | .ok pathKey =>
        match acd.lookup nameKey with
        | none => (reg, .error (.keyErr nameKey))
        | some mn =>
          match acd.lookup pathKey with
          | none => (reg, .error (.keyErr pathKey))
          | some mp =>
            match BridgingHubModuleRegistry.register_module env reg
                segment_name mn mp with
            | (reg1, .error e) => (reg1, .error e)
            | (reg1, .ok m) =>
              if m.action_type == action_name then (reg1, .ok m)
              else
                (reg1, .error (.brokenConfig
                  "The config holds a module of another type."))

/-- Embeds `main.load_module`: the `try` body with the wrapping `except`
clause applied to its outcome. -/
def load_module (env : BridgingHubModuleRegistry.Env)
    (reg : BridgingHubModuleRegistry.Registry)
    (config : List (String × ConfigVal)) (action_name segment_name : String) :
    BridgingHubModuleRegistry.Registry × Except PyErr BridgingHubModuleRegistry.PyObj :=
  match load_module_body env reg config action_name segment_name with
  | (reg1, .error e) => (reg1, .error (wrapLoaderErr e))
  | (reg1, .ok m) => (reg1, .ok m)

end Main

/-! Concrete fixtures shared by the claim theorems. -/

/-- The default custom-name table of `BridgingHubBaseModule.__init__`. -/
def cnDefault : CustomName := {}

/-- A storage configuration with only a cache directory. -/
def detCache : StorageDetail := { cache := some "/c" }

/-- The oracle under which every file write succeeds. -/
def okAll : FPath → Bool := fun _ => true

/-- A record for id "p" with timestamp 200. -/
def rec200 : Record := [("timestamp", "200"), ("value", "A")]

/-- A record for id "p" with timestamp 100. -/
def rec100 : Record := [("timestamp", "100"), ("value", "B")]

/-- The cache directory after `write_cache` of the timestamp-200 record
followed by `write_cache` of the timestamp-100 record for the same id:
the directory scan enumerates "200_p.json" before "100_p.json". -/
def fsAfterTwoWrites : FS :=
  (DefaultStorageModule.write_cache cnDefault detCache okAll [("p", rec100)]
    (DefaultStorageModule.write_cache cnDefault detCache okAll
      [("p", rec200)] ⟨[]⟩).2.1).2.1

/-- Lexicographic order on character lists (the file-name ordering the
specification appeals to for "oldest"). -/
def lexLtChars : List Char → List Char → Bool
  | [], [] => false
  | [], _ :: _ => true
  | _ :: _, [] => false
  | a :: as, b :: bs =>
    if a < b then true else if b < a then false else lexLtChars as bs

/-- C2, counterexample: with a configured cache directory and the single
expected record-id "p1" having no cached file, `read_cache` does not
return a result with "p1" simply absent — `_find_cached` initialises the
id with an empty list and `read_cache` indexes `c[k][0]`, so the
`IndexError` is re-raised as a `StorageModuleException`. -/
theorem read_cache_missing_id_raises_cex :
    DefaultStorageModule.read_cache detCache ["p1"] ⟨[]⟩ =
      .error (.storageModule "Could not read cache") := by
  rfl

/-- C3, counterexample: both staged files "200_p.json" and "100_p.json"
exist for id "p", the directory scan lists "200_p.json" first, and
`read_cache` returns its content — not the content of the lexically (and
by timestamp) oldest match "100_p.json", which differs. -/
theorem read_cache_not_oldest_cex :
    DefaultStorageModule.read_cache detCache ["p"] fsAfterTwoWrites =
      .ok [("p", [("timestamp", "200"), ("value", "A"), ("bHstatus", "cached")])] ∧
    FS.read? fsAfterTwoWrites ⟨"/c", "100_p.json"⟩ =
      some [("timestamp", "100"), ("value", "B"), ("bHstatus", "cached")] ∧
    lexLtChars "100_p.json".data "200_p.json".data = true ∧
    ([("timestamp", "200"), ("value", "A"), ("bHstatus", "cached")] : Record) ≠
      [("timestamp", "100"), ("value", "B"), ("bHstatus", "cached")] := by
  refine ⟨rfl, rfl, by decide, by decide⟩

/-- The oracle under which only the write of "1_a.json" fails. -/
def okNot1a : FPath → Bool := fun p => p.base != "1_a.json"

/-- A two-record batch whose first record will fail to write under
`okNot1a` while the second would succeed. -/
def batchAB : Batch := [("a", [("timestamp", "1")]), ("b", [("timestamp", "2")])]

/-- C4, counterexample: when the write of the first record of a batch
fails, `write_cache` does not return the successfully-written subset and
does not attempt the remaining records: it raises a
`StorageModuleException` and leaves the file system untouched, even
though the second record's write (to "2_b.json") would have succeeded. -/
theorem write_cache_abort_cex :
    DefaultStorageModule.write_cache cnDefault detCache okNot1a batchAB ⟨[]⟩ =
      (.error (.storageModule "Failed to write to cache"), (⟨[]⟩ : FS),
        ([] : List Ev)) ∧
    okNot1a ⟨"/c", "2_b.json"⟩ = true := by
  refine ⟨rfl, by decide⟩

/-- C5, counterexample: after staging id "p" twice with different
timestamps, two staged files for that one record-id exist at the same
time in the cache directory ("200_p.json" and "100_p.json"), so the
at-most-one-staged-file-per-id invariant does not hold. -/
theorem two_staged_files_per_id_cex :
    DefaultStorageModule.glob_cache "/c" "p" fsAfterTwoWrites =
      [⟨"/c", "200_p.json"⟩, ⟨"/c", "100_p.json"⟩] := by
  rfl

/-- Whether an outcome of `listen` is a configuration error
(`BrokenConfigException`). -/
def isConfigErr : Except PyErr (Option BridgingHubBaseModule.Observer) → Bool
  | .error (.brokenConfig _) => true
  | _ => false

/-- C6, counterexample: take the cyclic configuration in which segment A
subscribes to B and segment B subscribes to A. Wiring either stage during
graph construction does not reject the cycle with a configuration error:
`listen` fails with a `TypeError` on the very first subscription (the
source calls the registry's `load_module` with one of its two required
arguments), the same failure any non-cyclic subscription produces — no
depth-bounded traversal runs. -/
theorem cycle_config_not_config_error_cex :
    BridgingHubBaseModule.listen (some (.ofList ["B"])) .outputFn =
      .error (.typeErr
        "load_module() missing 1 required positional argument: module_class_name") ∧
    isConfigErr (BridgingHubBaseModule.listen (some (.ofList ["B"])) .outputFn)
      = false ∧
    BridgingHubBaseModule.listen (some (.ofList ["A"])) .inputFn =
      .error (.typeErr
        "load_module() missing 1 required positional argument: module_class_name") := by
  refine ⟨rfl, rfl, rfl⟩

/-- An import universe with class X at "path.x" and class Y at
"path.y", both concrete input modules. -/
def envXY : BridgingHubModuleRegistry.Env :=
  ⟨[("path.x", [⟨"X", "input", true, []⟩]),
    ("path.y", [⟨"Y", "input", true, []⟩])]⟩

/-- C7, counterexample: registering segment "A" with ("X", "path.x") and
then registering the same segment with the different target
("Y", "path.y") does not fail with a duplication error: the second call
silently returns the instance of X memoized by the first call and leaves
the registry unchanged. -/
theorem register_different_target_no_error_cex :
    (BridgingHubModuleRegistry.register_module envXY [] "A" "X" "path.x").2 =
      .ok ⟨"X", "input", "A"⟩ ∧
    BridgingHubModuleRegistry.register_module envXY
        (BridgingHubModuleRegistry.register_module envXY [] "A" "X" "path.x").1
        "A" "Y" "path.y" =
      ((BridgingHubModuleRegistry.register_module envXY [] "A" "X" "path.x").1,
        .ok ⟨"X", "input", "A"⟩) := by
  refine ⟨rfl, rfl⟩

/-- C8: `main.load_module` does not surface every module-loading failure
as the module-loader error kind. First conjunct: with a well-formed input
section, the body reads the class attribute `KEY_ACTION_MODULE_NAME`,
which `BridgingHubBaseModule` does not define (its attributes are
`KEY_MODULE_NAME`/`KEY_MODULE_PATH`), so every call raises
`AttributeError`, which is not in the wrapping `except` tuple and escapes
unwrapped. Second conjunct: a configuration missing the action section
raises a bare `KeyError`, equally unwrapped. -/
theorem main_load_module_attribute_error_escapes :
    Main.load_module envXY []
        [("input", .dict [("module_class_name", "X"), ("module_path", "path.x")])]
        "input" "default" =
      ([], .error (.attributeErr "KEY_ACTION_MODULE_NAME")) ∧
    Main.load_module envXY [] [] "input" "default" =
      ([], .error (.keyErr "input")) := by
  refine ⟨rfl, rfl⟩

/-- C9, counterexample: constructing the default storage stage through
the registry does not succeed: `DefaultStorageModule` leaves the abstract
methods `write_buffer`, `read_buffer` and `clean_buffer` of
`StorageBaseModule` unimplemented, so `ABCMeta` refuses the
instantiation with a `TypeError`. -/
theorem default_storage_instantiation_fails_cex :
    (BridgingHubModuleRegistry.register_module
        BridgingHubModuleRegistry.envDefaultStorage [] "default"
        "DefaultStorageModule" "module.storage.default_storage").2 =
      .error (.typeErr "Cannot instantiate abstract class") := by
  rfl

/-- C10: `StorageBaseModule.dispatch` is not total for a `module_type`
without a subtype suffix. The guard `len(mt) >= 1` always holds (a split
is never empty), so `mt[1]` is evaluated and raises `IndexError` for the
plain "storage" type, in the "bridge" and "output" contexts alike; with
the "storage:buffer" suffix the index is in bounds and a callable is
returned. -/
theorem storage_dispatch_plain_type_index_error :
    StorageBaseModule.dispatch (some "storage") none "bridge" =
      .error (.indexErr "list index out of range") ∧
    StorageBaseModule.dispatch (some "storage") none "output" =
      .error (.indexErr "list index out of range") ∧
    StorageBaseModule.dispatch (some "storage:buffer") none "bridge" =
      .ok (some .write_buffer) := by
  refine ⟨rfl, rfl, rfl⟩

/-- C6, amended claim: graph construction performs no cycle detection at
all; any stage whose configuration carries a non-empty subscription list
— whether or not the subscriptions form a cycle — fails during wiring
with a `TypeError` from the mis-called registry load, not with a
configuration error. -/
theorem listen_nonempty_subscription_type_error
    (l : List String) (obs : BridgingHubBaseModule.Observer)
    (h : l ≠ []) :
    BridgingHubBaseModule.listen (some (.ofList l)) obs =
      .error (.typeErr
        "load_module() missing 1 required positional argument: module_class_name") := by
  cases l with
  | nil => exact absurd rfl h
  | cons a as => rfl

/-- Witness for `listen_nonempty_subscription_type_error` at the cyclic
configuration in which B subscribes back to A. -/
theorem listen_nonempty_subscription_type_error_witness :
    BridgingHubBaseModule.listen (some (.ofList ["A"])) .write_buffer =
      .error (.typeErr
        "load_module() missing 1 required positional argument: module_class_name") :=
  listen_nonempty_subscription_type_error ["A"] .write_buffer (by decide)


/-- An association-list lookup hit implies the membership test the
registry uses before inserting. -/
theorem lookup_some_any {α : Type} (reg : List (String × α)) (seg : String)
    (e : α) (h : reg.lookup seg = some e) :
    reg.any (fun q => q.1 == seg) = true := by
  induction reg with
  | nil => simp [List.lookup] at h
  | cons hd tl ih =>
    rw [List.any_cons]
    rw [List.lookup] at h
    by_cases h1 : seg = hd.1
    · rw [← h1]
      simp
    · have h2 : (seg == hd.1) = false := by
        simpa using h1
      rw [h2] at h
      simp [ih h]

/-- A memoized registry entry is returned as is by `load_module`. -/
theorem load_module_memoized (env : BridgingHubModuleRegistry.Env)
    (reg : BridgingHubModuleRegistry.Registry) (seg cls : String)
    (entry : BridgingHubModuleRegistry.RegEntry)
    (obj : BridgingHubModuleRegistry.PyObj)
    (hmem : reg.lookup seg = some entry)
    (hobj : entry.module_object = some obj) :
    BridgingHubModuleRegistry.load_module env reg seg cls = (reg, .ok obj) := by
  unfold BridgingHubModuleRegistry.load_module
  rw [hmem]
  simp [hobj]

/-- The only error `import_module` produces is `NoSuchModuleException`. -/
theorem import_module_err_shape (env : BridgingHubModuleRegistry.Env)
    (path : String) (e : PyErr)
    (h : BridgingHubModuleRegistry.import_module env path = .error e) :
    ∃ m, e = .noSuchModule m := by
  unfold BridgingHubModuleRegistry.import_module at h
  cases hl : env.modules.lookup path <;> rw [hl] at h
  · have h2 : PyErr.noSuchModule "Module not found." = e := by simpa using h
    exact ⟨_, h2.symm⟩
  · simp at h

/-- The only error `instantiate_class` produces is the `TypeError` for a
remaining abstract method. -/
theorem instantiate_class_err_shape (c : BridgingHubModuleRegistry.PyClass)
    (s : String) (e : PyErr)
    (h : BridgingHubModuleRegistry.instantiate_class c s = .error e) :
    e = .typeErr "Cannot instantiate abstract class" := by
  unfold BridgingHubModuleRegistry.instantiate_class at h
  by_cases hab : c.abstractMethods.isEmpty <;> simp [hab] at h
  exact h.symm

/-- The registry `load_module` never raises `DuplicatedModuleException`. -/
theorem load_module_not_dup (env : BridgingHubModuleRegistry.Env)
    (reg : BridgingHubModuleRegistry.Registry) (s c msg : String) :
    (BridgingHubModuleRegistry.load_module env reg s c).2 ≠
      .error (.duplicatedModule msg) := by
  unfold BridgingHubModuleRegistry.load_module
  split
  · simp
  · split
    · simp
    · split
      · next e him =>
        rcases import_module_err_shape _ _ _ him with ⟨m, rfl⟩
        simp
      · split
        · simp
        · split
          · split
            · next e hin =>
              rw [instantiate_class_err_shape _ _ _ hin]
              simp
            · simp
          · simp

/-- C7, amended claim: registration is memoized by segment name alone.
For a segment that is already registered and loaded, `register_module`
returns the originally memoized instance and leaves the registry
unchanged for any `(implementation_name, location)` argument pair, the
original one and a different one alike; no input makes `register_module`
raise a `DuplicatedModuleException`. -/
theorem register_module_memoized_no_duplication_error
    (env : BridgingHubModuleRegistry.Env)
    (reg : BridgingHubModuleRegistry.Registry)
    (seg cls path : String) (entry : BridgingHubModuleRegistry.RegEntry)
    (obj : BridgingHubModuleRegistry.PyObj)
    (hmem : reg.lookup seg = some entry)
    (hobj : entry.module_object = some obj) :
    BridgingHubModuleRegistry.register_module env reg seg cls path =
      (reg, .ok obj) ∧
    ∀ (env2 : BridgingHubModuleRegistry.Env)
      (reg2 : BridgingHubModuleRegistry.Registry) (s c p msg : String),
      (BridgingHubModuleRegistry.register_module env2 reg2 s c p).2 ≠
        .error (.duplicatedModule msg) := by
  constructor
  · unfold BridgingHubModuleRegistry.register_module
    rw [lookup_some_any reg seg entry hmem]
    simp only [if_true]
    exact load_module_memoized env reg seg cls entry obj hmem hobj
  · intro env2 reg2 s c p msg
    unfold BridgingHubModuleRegistry.register_module
    exact load_module_not_dup env2 _ s c msg

/-- Witness for `register_module_memoized_no_duplication_error`: segment
"A" is registered and loaded as class X from "path.x"; re-registering it
as class Y from "path.y" returns the memoized X instance unchanged. -/
theorem register_module_memoized_no_duplication_error_witness :
    BridgingHubModuleRegistry.register_module envXY
        [("A", ⟨"path.x", "X", some ⟨"X", "input", "A"⟩⟩)] "A" "Y" "path.y" =
      ([("A", ⟨"path.x", "X", some ⟨"X", "input", "A"⟩⟩)],
        .ok ⟨"X", "input", "A"⟩) :=
  (register_module_memoized_no_duplication_error envXY
    [("A", ⟨"path.x", "X", some ⟨"X", "input", "A"⟩⟩)] "A" "Y" "path.y"
    ⟨"path.x", "X", some ⟨"X", "input", "A"⟩⟩ ⟨"X", "input", "A"⟩
    (by rfl) (by rfl)).1

/-- C9, amended claim: loading `DefaultStorageModule` through the
registry fails for every segment name: the abstract methods left
unimplemented are exactly `write_buffer`, `read_buffer` and
`clean_buffer`, so the instantiation raises `TypeError` instead of
yielding a storage stage. -/
theorem default_storage_load_type_error :
    BridgingHubModuleRegistry.defaultStorage_abstractMethods =
      ["write_buffer", "read_buffer", "clean_buffer"] ∧
    ∀ seg : String,
      (BridgingHubModuleRegistry.register_module
          BridgingHubModuleRegistry.envDefaultStorage [] seg
          "DefaultStorageModule" "module.storage.default_storage").2 =
        .error (.typeErr "Cannot instantiate abstract class") := by
  refine ⟨rfl, fun seg => ?_⟩
  show (BridgingHubModuleRegistry.load_module
      BridgingHubModuleRegistry.envDefaultStorage
      [(seg, ⟨"module.storage.default_storage", "DefaultStorageModule", none⟩)]
      seg "DefaultStorageModule").2 =
    Except.error (.typeErr "Cannot instantiate abstract class")
  unfold BridgingHubModuleRegistry.load_module
  rw [List.lookup, beq_self_eq_true]
  rfl


/-- On success, the `_write_files` loop has processed every record: the
returned batch is the accumulator followed by the whole input batch with
the status field stamped. -/
theorem write_files_go_ok_all (cn : CustomName) (ok : FPath → Bool)
    (dir status : String) :
    ∀ (msg acc : Batch) (fs : FS) (tr : List Ev) (out : Batch) (fs' : FS)
      (tr' : List Ev),
      DefaultStorageModule.write_files_go cn ok dir status msg acc fs tr =
        (.ok out, fs', tr') →
      out = acc ++ msg.map (fun kv => (kv.1, recSet kv.2 cn.bHstatus_name status)) := by
  intro msg
  induction msg with
  | nil =>
    intro acc fs tr out fs' tr' h
    rw [DefaultStorageModule.write_files_go] at h
    simp at h
    simp [h.1.symm]
  | cons kv rest ih =>
    intro acc fs tr out fs' tr' h
    obtain ⟨k, v⟩ := kv
    rw [DefaultStorageModule.write_files_go] at h
    split at h
    · simp at h
    · split at h
      · have h2 := ih _ _ _ _ _ _ h
        simp [h2]
      · simp at h

/-- C4, amended claim: `write_cache` never reports partial success. When
it returns normally, either no cache directory is configured and the
result is the empty batch, or every record of the input batch was written
and is returned with status "cached"; when any single write fails, the
whole call raises a `StorageModuleException` instead of returning the
successfully-written subset, abandoning the records after the failing
one. -/
theorem write_cache_all_or_error (cn : CustomName)
    (detail : StorageDetail) (ok : FPath → Bool) (message : Batch) (fs : FS)
    (m : Batch) (fs' : FS) (tr : List Ev)
    (h : DefaultStorageModule.write_cache cn detail ok message fs =
      (.ok m, fs', tr)) :
    (detail.cache = none ∧ m = []) ∨
    m = message.map (fun kv => (kv.1, recSet kv.2 cn.bHstatus_name "cached")) := by
  unfold DefaultStorageModule.write_cache at h
  split at h
  · simp at h
  · next heq =>
    have hm : Except.ok ([] : Batch) = Except.ok m := congrArg Prod.fst h
    refine Or.inl ⟨?_, by simpa using hm.symm⟩
    unfold DefaultStorageModule.test_dir at heq
    split at heq
    · next hc => exact hc
    · split at heq <;> simp at heq
  · next d heq =>
    split at h
    · simp at h
    · next mm fs1 tr1 hw =>
      have hm : Except.ok mm = Except.ok m := congrArg Prod.fst h
      have hmm : mm = m := by simpa using hm
      refine Or.inr ?_
      rw [← hmm]
      have h3 := write_files_go_ok_all cn ok d "cached" message [] fs [] mm fs1 tr1
      rw [DefaultStorageModule.write_files] at hw
      simpa using h3 hw

/-- Witness for `write_cache_all_or_error`: the two-record batch
written under the all-writes-succeed oracle comes back in full, both
records stamped "cached". -/
theorem write_cache_all_or_error_witness :
    (detCache.cache = none ∧
      ([("a", [("timestamp", "1"), ("bHstatus", "cached")]),
        ("b", [("timestamp", "2"), ("bHstatus", "cached")])] : Batch) = []) ∨
    ([("a", [("timestamp", "1"), ("bHstatus", "cached")]),
      ("b", [("timestamp", "2"), ("bHstatus", "cached")])] : Batch) =
      batchAB.map (fun kv => (kv.1, recSet kv.2 cnDefault.bHstatus_name "cached")) :=
  write_cache_all_or_error cnDefault detCache okAll batchAB ⟨[]⟩
    [("a", [("timestamp", "1"), ("bHstatus", "cached")]),
     ("b", [("timestamp", "2"), ("bHstatus", "cached")])]
    ⟨[(⟨"/c", "1_a.json"⟩, [("timestamp", "1"), ("bHstatus", "cached")]),
      (⟨"/c", "2_b.json"⟩, [("timestamp", "2"), ("bHstatus", "cached")])]⟩
    [.write ⟨"/c", "1_a.json"⟩, .write ⟨"/c", "2_b.json"⟩]
    (by rfl)

/-- Every error of the `read_cache` loop is the storage-module wrap. -/
theorem read_cache_go_err_shape (fs : FS) :
    ∀ (l : List (String × List FPath)) (acc : Batch) (e : PyErr),
      DefaultStorageModule.read_cache_go fs l acc = .error e →
      e = .storageModule "Could not read cache" := by
  intro l
  induction l with
  | nil => intro acc e h; rw [DefaultStorageModule.read_cache_go] at h; simp at h
  | cons hd tl ih =>
    intro acc e h
    obtain ⟨k, ps⟩ := hd
    cases ps with
    | nil =>
      rw [DefaultStorageModule.read_cache_go] at h
      simpa using h.symm
    | cons p r =>
      rw [DefaultStorageModule.read_cache_go] at h
      split at h
      · exact ih _ _ h
      · simpa using h.symm

/-- Every error of `read_cache` is the storage-module wrap. -/
theorem read_cache_err_shape (detail : StorageDetail) (vm : List String)
    (fs : FS) (e : PyErr)
    (h : DefaultStorageModule.read_cache detail vm fs = .error e) :
    e = .storageModule "Could not read cache" := by
  unfold DefaultStorageModule.read_cache at h
  split at h
  · simpa using h.symm
  · exact read_cache_go_err_shape fs _ _ _ h

/-- A successful `read_cache` loop had a match for every listed id. -/
theorem read_cache_go_ok_nonempty (fs : FS) :
    ∀ (l : List (String × List FPath)) (acc out : Batch),
      DefaultStorageModule.read_cache_go fs l acc = .ok out →
      ∀ kp ∈ l, kp.2 ≠ [] := by
  intro l
  induction l with
  | nil => intro acc out h kp hkp; simp at hkp
  | cons hd tl ih =>
    intro acc out h kp hkp
    obtain ⟨k, ps⟩ := hd
    cases ps with
    | nil =>
      rw [DefaultStorageModule.read_cache_go] at h
      simp at h
    | cons p r =>
      rw [DefaultStorageModule.read_cache_go] at h
      split at h
      · rcases List.mem_cons.mp hkp with h1 | h2
        · subst h1; simp
        · exact ih _ _ h kp h2
      · simp at h

/-- The `read_cache` loop only ever extends its accumulator. -/
theorem read_cache_go_acc_mem (fs : FS) :
    ∀ (l : List (String × List FPath)) (acc out : Batch),
      DefaultStorageModule.read_cache_go fs l acc = .ok out →
      ∀ x ∈ acc, x ∈ out := by
  intro l
  induction l with
  | nil =>
    intro acc out h x hx
    rw [DefaultStorageModule.read_cache_go] at h
    have h2 : acc = out := by simpa using h
    exact h2 ▸ hx
  | cons hd tl ih =>
    intro acc out h x hx
    obtain ⟨k, ps⟩ := hd
    cases ps with
    | nil =>
      rw [DefaultStorageModule.read_cache_go] at h
      simp at h
    | cons p r =>
      rw [DefaultStorageModule.read_cache_go] at h
      split at h
      · exact ih _ _ h x (List.mem_append_left _ hx)
      · simp at h

/-- A successful `read_cache` loop pairs every listed id with the
content of the head of its match list. -/
theorem read_cache_go_ok_mem (fs : FS) :
    ∀ (l : List (String × List FPath)) (acc out : Batch),
      DefaultStorageModule.read_cache_go fs l acc = .ok out →
      ∀ (k : String) (p : FPath) (rest : List FPath),
        (k, p :: rest) ∈ l →
        ∃ v, fs.read? p = some v ∧ (k, v) ∈ out := by
  intro l
  induction l with
  | nil => intro acc out h k p rest hmem; simp at hmem
  | cons hd tl ih =>
    intro acc out h k p rest hmem
    obtain ⟨k0, ps0⟩ := hd
    cases ps0 with
    | nil =>
      rw [DefaultStorageModule.read_cache_go] at h
      simp at h
    | cons p0 r0 =>
      rw [DefaultStorageModule.read_cache_go] at h
      split at h
      · next v0 hv0 =>
        rcases List.mem_cons.mp hmem with h1 | h2
        · have hk : k = k0 := congrArg Prod.fst h1
          have hps : p :: rest = p0 :: r0 := congrArg Prod.snd h1
          have hp : p = p0 := by
            injection hps
          refine ⟨v0, by rw [hp]; exact hv0, ?_⟩
          rw [hk]
          exact read_cache_go_acc_mem fs _ _ _ h (k0, v0)
            (List.mem_append_right _ (List.mem_singleton.mpr rfl))
        · exact ih _ _ h k p rest h2
      · simp at h

/-- C2, amended claim: for every record-id expected by the data-point
registry that has no matching file in the cache directory, `read_cache`
raises a `StorageModuleException` (re-raising the `IndexError` from
indexing the id's empty match list); a missing id is never silently
absent from a successful result. -/
theorem read_cache_missing_id_errors (detail : StorageDetail)
    (vm : List String) (fs : FS) (d k : String)
    (hd : DefaultStorageModule.test_dir detail.cache "" = .ok (some d))
    (hk : k ∈ vm)
    (hglob : DefaultStorageModule.glob_cache d k fs = []) :
    DefaultStorageModule.read_cache detail vm fs =
      .error (.storageModule "Could not read cache") := by
  cases h : DefaultStorageModule.read_cache detail vm fs with
  | error e => rw [read_cache_err_shape detail vm fs e h]
  | ok out =>
    exfalso
    unfold DefaultStorageModule.read_cache at h
    have hfc : DefaultStorageModule.find_cached detail vm fs =
        .ok (vm.map (fun k0 => (k0, DefaultStorageModule.glob_cache d k0 fs))) := by
      unfold DefaultStorageModule.find_cached
      rw [hd]
    rw [hfc] at h
    have hne := read_cache_go_ok_nonempty fs _ _ _ h
      (k, DefaultStorageModule.glob_cache d k fs) (List.mem_map_of_mem _ hk)
    exact hne hglob

/-- C3, amended claim: for every expected record-id with at least one
matching file, a successful `read_cache` returns the content of the
first match in directory enumeration order — the head of the glob result
— not the match selected by lexical/timestamp file-name ordering. -/
theorem read_cache_returns_first_glob_match (detail : StorageDetail)
    (vm : List String) (fs : FS) (d : String) (m : Batch)
    (hd : DefaultStorageModule.test_dir detail.cache "" = .ok (some d))
    (hok : DefaultStorageModule.read_cache detail vm fs = .ok m) :
    ∀ k ∈ vm, ∀ (p : FPath) (rest : List FPath),
      DefaultStorageModule.glob_cache d k fs = p :: rest →
      ∃ v, fs.read? p = some v ∧ (k, v) ∈ m := by
  intro k hk p rest hg
  unfold DefaultStorageModule.read_cache at hok
  have hfc : DefaultStorageModule.find_cached detail vm fs =
      .ok (vm.map (fun k0 => (k0, DefaultStorageModule.glob_cache d k0 fs))) := by
    unfold DefaultStorageModule.find_cached
    rw [hd]
  rw [hfc] at hok
  have hmem : (k, p :: rest) ∈
      vm.map (fun k0 => (k0, DefaultStorageModule.glob_cache d k0 fs)) := by
    rw [← hg]
    exact List.mem_map_of_mem _ hk
  exact read_cache_go_ok_mem fs _ _ _ hok k p rest hmem

/-- Witness for `read_cache_missing_id_errors`: the expected id "p1" with
an empty cache directory makes `read_cache` raise. -/
theorem read_cache_missing_id_errors_witness :
    DefaultStorageModule.test_dir detCache.cache "" = .ok (some "/c") ∧
    "p1" ∈ ["p1"] ∧
    DefaultStorageModule.glob_cache "/c" "p1" ⟨[]⟩ = [] ∧
    DefaultStorageModule.read_cache detCache ["p1"] ⟨[]⟩ =
      .error (.storageModule "Could not read cache") :=
  ⟨rfl, by decide, rfl,
    read_cache_missing_id_errors detCache ["p1"] ⟨[]⟩ "/c" "p1" rfl (by decide) rfl⟩

/-- Witness for `read_cache_returns_first_glob_match`: with the two
staged files for id "p", the result holds the content of the first
enumerated match "200_p.json". -/
theorem read_cache_returns_first_glob_match_witness :
    ∃ v, FS.read? fsAfterTwoWrites ⟨"/c", "200_p.json"⟩ = some v ∧
      ("p", v) ∈
        [("p", [("timestamp", "200"), ("value", "A"), ("bHstatus", "cached")])] :=
  read_cache_returns_first_glob_match detCache ["p"] fsAfterTwoWrites "/c"
    [("p", [("timestamp", "200"), ("value", "A"), ("bHstatus", "cached")])]
    rfl rfl "p" (by decide) ⟨"/c", "200_p.json"⟩ [⟨"/c", "100_p.json"⟩] rfl

/-- No path occurs twice in the file system (what "at most one file per
name" means for the on-disk map). -/
def pathsNodup (fs : FS) : Prop := (fs.files.map Prod.fst).Nodup

theorem FS.write_nodup (fs : FS) (p : FPath) (v : Record)
    (h : pathsNodup fs) : pathsNodup (fs.write p v) := by
  unfold pathsNodup FS.write
  by_cases hc : fs.files.any (fun e => e.1 == p) = true
  · rw [if_pos hc]
    simp only [List.map_map]
    have hfe : (Prod.fst ∘ fun e : FPath × Record =>
        if e.1 == p then (e.1, v) else e) = Prod.fst := by
      funext e
      simp only [Function.comp_apply]
      split <;> rfl
    rw [hfe]
    exact h
  · rw [if_neg hc]
    rw [List.map_append]
    rw [List.nodup_append]
    refine ⟨h, List.nodup_singleton _, ?_⟩
    intro a ha hb
    have hap : a = p := by simpa using hb
    subst hap
    rcases List.mem_map.mp ha with ⟨e, he, hea⟩
    have h2 := List.any_eq_false.mp (Bool.not_eq_true _ ▸ hc) e he
    apply h2
    simp [hea]

theorem FS.delete_nodup (fs : FS) (p : FPath) (h : pathsNodup fs) :
    pathsNodup (fs.delete p) := by
  unfold pathsNodup FS.delete
  exact ((List.filter_sublist _).map Prod.fst).nodup h

theorem write_files_go_nodup (cn : CustomName) (ok : FPath → Bool)
    (dir status : String) :
    ∀ (msg acc : Batch) (fs : FS) (tr : List Ev),
      pathsNodup fs →
      pathsNodup (DefaultStorageModule.write_files_go cn ok dir status
        msg acc fs tr).2.1 := by
  intro msg
  induction msg with
  | nil =>
    intro acc fs tr h
    rw [DefaultStorageModule.write_files_go]
    exact h
  | cons kv rest ih =>
    intro acc fs tr h
    obtain ⟨k, v⟩ := kv
    rw [DefaultStorageModule.write_files_go]
    split
    · exact h
    · split
      · exact ih _ _ _ (FS.write_nodup _ _ _ h)
      · exact h

theorem write_files_nodup (cn : CustomName) (ok : FPath → Bool)
    (message : Batch) (dir status : String) (fs : FS) (h : pathsNodup fs) :
    pathsNodup (DefaultStorageModule.write_files cn ok message dir status fs).2.1 := by
  rw [DefaultStorageModule.write_files]
  exact write_files_go_nodup cn ok dir status message [] fs [] h

theorem clean_cache_go_nodup (cn : CustomName) (d : String) :
    ∀ (msg acc : Batch) (fs : FS) (tr : List Ev),
      pathsNodup fs →
      pathsNodup (DefaultStorageModule.clean_cache_go cn d msg acc fs tr).2.1 := by
  intro msg
  induction msg with
  | nil =>
    intro acc fs tr h
    rw [DefaultStorageModule.clean_cache_go]
    exact h
  | cons kv rest ih =>
    intro acc fs tr h
    obtain ⟨k, v⟩ := kv
    rw [DefaultStorageModule.clean_cache_go]
    split
    · exact h
    · split
      · exact ih _ _ _ (FS.delete_nodup _ _ h)
      · exact h

theorem clean_cache_nodup (cn : CustomName) (detail : StorageDetail)
    (message : Batch) (fs : FS) (h : pathsNodup fs) :
    pathsNodup (DefaultStorageModule.clean_cache cn detail message fs).2.1 := by
  unfold DefaultStorageModule.clean_cache
  split
  · exact h
  · exact h
  · exact clean_cache_go_nodup cn _ message [] fs [] h

theorem write_cache_nodup (cn : CustomName) (detail : StorageDetail)
    (ok : FPath → Bool) (message : Batch) (fs : FS) (h : pathsNodup fs) :
    pathsNodup (DefaultStorageModule.write_cache cn detail ok message fs).2.1 := by
  unfold DefaultStorageModule.write_cache
  split
  · exact h
  · exact h
  · next d heq =>
    have h1 := write_files_nodup cn ok message d "cached" fs h
    split
    · next a fs1 tr1 hw =>
      rw [hw] at h1
      exact h1
    · next mm fs1 tr1 hw =>
      rw [hw] at h1
      exact h1

theorem store_nodup (cn : CustomName) (detail : StorageDetail)
    (ok : FPath → Bool) (today : String) (message : Batch) (fs : FS)
    (h : pathsNodup fs) :
    pathsNodup (DefaultStorageModule.store cn detail ok today message fs).2.1 := by
  unfold DefaultStorageModule.store
  split
  · exact h
  · split
    · exact h
    · split
      · exact h
      · split
        · exact h
        · next junkP archiveP hfall =>
          split
          · exact h
          · next mfailed m hpart =>
            split
            · have h1 := write_files_nodup cn ok mfailed junkP "broken" fs h
              split
              · next a fs1 tr1 hw =>
                rw [hw] at h1
                exact h1
              · next wf fs1 tr1 hw =>
                rw [hw] at h1
                have h2 := clean_cache_nodup cn detail wf fs1 h1
                split
                · next a fs2 tr2 hcl =>
                  rw [hcl] at h2
                  exact h2
                · next u fs2 tr2 hcl =>
                  rw [hcl] at h2
                  have h3 := write_files_nodup cn ok m archiveP "done" fs2 h2
                  split
                  · next a fs3 tr3 hw3 =>
                    rw [hw3] at h3
                    exact h3
                  · next m2 fs3 tr3 hw3 =>
                    rw [hw3] at h3
                    have h4 := clean_cache_nodup cn detail m2 fs3 h3
                    split
                    · next a fs4 tr4 hcl4 =>
                      rw [hcl4] at h4
                      exact h4
                    · next u4 fs4 tr4 hcl4 =>
                      rw [hcl4] at h4
                      exact h4
            · have h1 := write_files_nodup cn ok mfailed junkP "broken" fs h
              split
              · next a fs1 tr1 hw =>
                rw [hw] at h1
                exact h1
              · next u fs1 tr1 hw =>
                rw [hw] at h1
                have h2 := write_files_nodup cn ok m archiveP "done" fs1 h1
                split
                · next a fs2 tr2 hw2 =>
                  rw [hw2] at h2
                  exact h2
                · next m2 fs2 tr2 hw2 =>
                  rw [hw2] at h2
                  exact h2

/-- C5, amended claim: the staging operations guarantee at most one
staged file per `(timestamp, record-id)` pair — the file name — not per
record-id: every `write_cache`, `clean_cache` and `store` call preserves
the no-duplicate-paths invariant of the cache/junk/archive directories,
while the same record-id staged under two timestamps yields two
coexisting cache files. -/
theorem storage_ops_keep_paths_nodup (cn : CustomName)
    (detail : StorageDetail) (ok : FPath → Bool) (today : String)
    (message : Batch) (fs : FS) (h : pathsNodup fs) :
    pathsNodup (DefaultStorageModule.write_cache cn detail ok message fs).2.1 ∧
    pathsNodup (DefaultStorageModule.clean_cache cn detail message fs).2.1 ∧
    pathsNodup (DefaultStorageModule.store cn detail ok today message fs).2.1 :=
  ⟨write_cache_nodup cn detail ok message fs h,
   clean_cache_nodup cn detail message fs h,
   store_nodup cn detail ok today message fs h⟩

/-- Witness for `storage_ops_keep_paths_nodup` at the two-record batch,
cache-only configuration and empty initial file system. -/
theorem storage_ops_keep_paths_nodup_witness :
    pathsNodup (DefaultStorageModule.write_cache cnDefault detCache okAll
      batchAB ⟨[]⟩).2.1 ∧
    pathsNodup (DefaultStorageModule.clean_cache cnDefault detCache
      batchAB ⟨[]⟩).2.1 ∧
    pathsNodup (DefaultStorageModule.store cnDefault detCache okAll
      "2026/10/12" batchAB ⟨[]⟩).2.1 :=
  storage_ops_keep_paths_nodup cnDefault detCache okAll "2026/10/12" batchAB
    ⟨[]⟩ (by simp [pathsNodup])

/-- The base names written to the junk or archive directory so far,
accumulated over a trace. -/
def collectDest (junkP archiveP : String) : List String → List Ev → List String
  | seen, [] => seen
  | seen, .write p :: r =>
    collectDest junkP archiveP
      (if p.dir == junkP || p.dir == archiveP then p.base :: seen else seen) r
  | seen, .delete _ :: r => collectDest junkP archiveP seen r

/-- The ordering audit for `store` traces: scanning left to right, every
delete must name a file of the cache directory whose base name was
already written to the junk or archive directory. -/
def delete_after_write (cacheP junkP archiveP : String) :
    List String → List Ev → Bool
  | _, [] => true
  | seen, .write p :: r =>
    delete_after_write cacheP junkP archiveP
      (if p.dir == junkP || p.dir == archiveP then p.base :: seen else seen) r
  | seen, .delete p :: r =>
    (p.dir == cacheP && seen.contains p.base) &&
      delete_after_write cacheP junkP archiveP seen r

/-- The audit splits over trace concatenation. -/
theorem daw_append (cacheP junkP archiveP : String) :
    ∀ (t1 t2 : List Ev) (seen : List String),
      delete_after_write cacheP junkP archiveP seen (t1 ++ t2) =
        (delete_after_write cacheP junkP archiveP seen t1 &&
          delete_after_write cacheP junkP archiveP
            (collectDest junkP archiveP seen t1) t2) := by
  intro t1
  induction t1 with
  | nil =>
    intro t2 seen
    simp [delete_after_write, collectDest]
  | cons e r ih =>
    intro t2 seen
    cases e with
    | write p =>
      rw [List.cons_append, delete_after_write, delete_after_write, collectDest]
      exact ih t2 _
    | delete p =>
      rw [List.cons_append, delete_after_write, delete_after_write, collectDest]
      rw [ih t2 seen]
      simp [Bool.and_assoc]

/-- Accumulation only grows the seen set. -/
theorem mem_collectDest_mono (junkP archiveP : String) :
    ∀ (t : List Ev) (seen : List String) (b : String),
      b ∈ seen → b ∈ collectDest junkP archiveP seen t := by
  intro t
  induction t with
  | nil => intro seen b hb; exact hb
  | cons e r ih =>
    intro seen b hb
    cases e with
    | write p =>
      rw [collectDest]
      apply ih
      split
      · exact List.mem_cons_of_mem _ hb
      · exact hb
    | delete p =>
      rw [collectDest]
      exact ih seen b hb

/-- A write to the junk or archive directory puts its base name into the
accumulated seen set. -/
theorem write_mem_collectDest (junkP archiveP : String) :
    ∀ (t : List Ev) (seen : List String) (d0 b : String),
      Ev.write ⟨d0, b⟩ ∈ t → (d0 == junkP || d0 == archiveP) = true →
      b ∈ collectDest junkP archiveP seen t := by
  intro t
  induction t with
  | nil => intro seen d0 b hmem; simp at hmem
  | cons e r ih =>
    intro seen d0 b hmem hd
    rcases List.mem_cons.mp hmem with h1 | h2
    · subst h1
      rw [collectDest]
      simp only [hd]
      apply mem_collectDest_mono
      simp
    · cases e with
      | write p =>
        rw [collectDest]
        exact ih _ d0 b h2 hd
      | delete p =>
        rw [collectDest]
        exact ih seen d0 b h2 hd

/-- The audit passes when every delete of a trace names a cache file
whose base is already in the seen set. -/
theorem daw_true_of_deletes (cacheP junkP archiveP : String) :
    ∀ (t : List Ev) (seen : List String),
      (∀ p : FPath, Ev.delete p ∈ t →
        (p.dir == cacheP) = true ∧ p.base ∈ seen) →
      delete_after_write cacheP junkP archiveP seen t = true := by
  intro t
  induction t with
  | nil => intro seen hdel; rw [delete_after_write]
  | cons e r ih =>
    intro seen hdel
    cases e with
    | write p =>
      rw [delete_after_write]
      apply ih
      intro q hq
      have h2 := hdel q (List.mem_cons_of_mem _ hq)
      refine ⟨h2.1, ?_⟩
      split
      · exact List.mem_cons_of_mem _ h2.2
      · exact h2.2
    | delete p =>
      rw [delete_after_write]
      have h1 := hdel p (List.mem_cons_self _ _)
      have h3 : seen.contains p.base = true := List.elem_eq_true_of_mem h1.2
      rw [h1.1, h3, ih seen (fun q hq => hdel q (List.mem_cons_of_mem _ hq))]
      rfl

/-- The `_write_files` loop only appends to the trace. -/
theorem write_files_go_trace_extends (cn : CustomName) (ok : FPath → Bool)
    (dir status : String) :
    ∀ (msg acc : Batch) (fs : FS) (tr : List Ev) (e : Ev),
      e ∈ tr →
      e ∈ (DefaultStorageModule.write_files_go cn ok dir status
        msg acc fs tr).2.2 := by
  intro msg
  induction msg with
  | nil =>
    intro acc fs tr e he
    rw [DefaultStorageModule.write_files_go]
    exact he
  | cons kv rest ih =>
    intro acc fs tr e he
    obtain ⟨k, v⟩ := kv
    rw [DefaultStorageModule.write_files_go]
    split
    · exact he
    · split
      · exact ih _ _ _ _ (List.mem_append_left _ he)
      · exact he

/-- The `_write_files` loop emits only writes into its target
directory. -/
theorem write_files_go_trace_writes (cn : CustomName) (ok : FPath → Bool)
    (dir status : String) :
    ∀ (msg acc : Batch) (fs : FS) (tr : List Ev) (e : Ev),
      e ∈ (DefaultStorageModule.write_files_go cn ok dir status
        msg acc fs tr).2.2 →
      e ∈ tr ∨ ∃ b, e = .write ⟨dir, b⟩ := by
  intro msg
  induction msg with
  | nil =>
    intro acc fs tr e he
    rw [DefaultStorageModule.write_files_go] at he
    exact Or.inl he
  | cons kv rest ih =>
    intro acc fs tr e he
    obtain ⟨k, v⟩ := kv
    rw [DefaultStorageModule.write_files_go] at he
    split at he
    · exact Or.inl he
    · next p hnf =>
      split at he
      · rcases ih _ _ _ _ he with h1 | h2
        · rcases List.mem_append.mp h1 with h3 | h4
          · exact Or.inl h3
          · refine Or.inr ⟨p.base, ?_⟩
            have : e = Ev.write p := by simpa using h4
            unfold DefaultStorageModule.name_file at hnf
            split at hnf
            · next t hre =>
              have hp : FPath.mk dir (t ++ "_" ++ k ++ ".json") = p := by
                simpa using hnf
              rw [this, ← hp]
            · simp at hnf
        · exact Or.inr h2
      · exact Or.inl he

/-- On success, every record returned by the `_write_files` loop had its
file written: the trace holds a write of the file named from the record
timestamp and id in the target directory. -/
theorem write_files_go_ok_writes (cn : CustomName) (ok : FPath → Bool)
    (dir status : String) :
    ∀ (msg acc : Batch) (fs : FS) (tr : List Ev) (out : Batch) (fs' : FS)
      (tr' : List Ev),
      DefaultStorageModule.write_files_go cn ok dir status msg acc fs tr =
        (.ok out, fs', tr') →
      ∀ kv ∈ out, kv ∈ acc ∨
        ∃ t0, recGet? kv.2 cn.timestamp_name = some t0 ∧
          Ev.write ⟨dir, t0 ++ "_" ++ kv.1 ++ ".json"⟩ ∈ tr' := by
  intro msg
  induction msg with
  | nil =>
    intro acc fs tr out fs' tr' h kv hkv
    rw [DefaultStorageModule.write_files_go] at h
    refine Or.inl ?_
    have h3 : acc = out := by
      have h4 := congrArg Prod.fst h
      simpa using h4
    exact h3 ▸ hkv
  | cons kv0 rest ih =>
    intro acc fs tr out fs' tr' h kv hkv
    obtain ⟨k, v⟩ := kv0
    rw [DefaultStorageModule.write_files_go] at h
    split at h
    · simp at h
    · next p hnf =>
      split at h
      · next hok =>
        have htr : (DefaultStorageModule.write_files_go cn ok dir status rest
            (acc ++ [(k, recSet v cn.bHstatus_name status)])
            (fs.write p (recSet v cn.bHstatus_name status))
            (tr ++ [Ev.write p])).2.2 = tr' := by
          rw [h]
        rcases ih _ _ _ _ _ _ h kv hkv with h1 | h2
        · rcases List.mem_append.mp h1 with h3 | h4
          · exact Or.inl h3
          · have hkv2 : kv = (k, recSet v cn.bHstatus_name status) := by
              simpa using h4
            unfold DefaultStorageModule.name_file at hnf
            split at hnf
            · next t hre =>
              have hp : FPath.mk dir (t ++ "_" ++ k ++ ".json") = p := by
                simpa using hnf
              refine Or.inr ⟨t, ?_, ?_⟩
              · rw [hkv2]; exact hre
              · rw [hkv2]
                rw [← htr]
                apply write_files_go_trace_extends
                apply List.mem_append_right
                rw [hp]
                simp
            · simp at hnf
        · exact Or.inr h2
      · simp at h

/-- The `clean_cache` loop emits only deletes of files named from the
records of its input batch in the cache directory. -/
theorem clean_cache_go_trace (cn : CustomName) (d : String) :
    ∀ (msg acc : Batch) (fs : FS) (tr : List Ev) (e : Ev),
      e ∈ (DefaultStorageModule.clean_cache_go cn d msg acc fs tr).2.2 →
      e ∈ tr ∨ ∃ kv, kv ∈ msg ∧
        ∃ t0, recGet? kv.2 cn.timestamp_name = some t0 ∧
          e = .delete ⟨d, t0 ++ "_" ++ kv.1 ++ ".json"⟩ := by
  intro msg
  induction msg with
  | nil =>
    intro acc fs tr e he
    rw [DefaultStorageModule.clean_cache_go] at he
    exact Or.inl he
  | cons kv0 rest ih =>
    intro acc fs tr e he
    obtain ⟨k, v⟩ := kv0
    rw [DefaultStorageModule.clean_cache_go] at he
    split at he
    · exact Or.inl he
    · next f hnf =>
      split at he
      · rcases ih _ _ _ _ he with h1 | h2
        · rcases List.mem_append.mp h1 with h3 | h4
          · exact Or.inl h3
          · have he2 : e = Ev.delete f := by simpa using h4
            unfold DefaultStorageModule.name_file at hnf
            split at hnf
            · next t hre =>
              have hf : FPath.mk d (t ++ "_" ++ k ++ ".json") = f := by
                simpa using hnf
              exact Or.inr ⟨(k, v), List.mem_cons_self _ _,
                t, hre, by rw [he2, ← hf]⟩
            · simp at hnf
        · rcases h2 with ⟨kv1, hkv1, t0, hre, he3⟩
          exact Or.inr ⟨kv1, List.mem_cons_of_mem _ hkv1, t0, hre, he3⟩
      · exact Or.inl he

/-- With a configured absolute cache directory, `clean_cache` is its
loop started on the resolved directory. -/
theorem clean_cache_eq_go (cn : CustomName) (detail : StorageDetail)
    (message : Batch) (fs : FS) (d : String)
    (hd : DefaultStorageModule.test_dir detail.cache "" = .ok (some d)) :
    DefaultStorageModule.clean_cache cn detail message fs =
      DefaultStorageModule.clean_cache_go cn d message [] fs [] := by
  unfold DefaultStorageModule.clean_cache
  rw [hd]

/-- The function `_write_files` emits only writes into its target directory. -/
theorem write_files_trace_writes (cn : CustomName) (ok : FPath → Bool)
    (msg : Batch) (dir status : String) (fs : FS) :
    ∀ e ∈ (DefaultStorageModule.write_files cn ok msg dir status fs).2.2,
      ∃ b, e = .write ⟨dir, b⟩ := by
  intro e he
  rw [DefaultStorageModule.write_files] at he
  rcases write_files_go_trace_writes cn ok dir status msg [] fs [] e he with h1 | h2
  · simp at h1
  · exact h2

/-- A `_write_files` trace passes the audit: it deletes nothing. -/
theorem daw_wf_trace (cacheP junkP archiveP : String) (cn : CustomName)
    (ok : FPath → Bool) (msg : Batch) (dir status : String) (fs : FS)
    (r1 : Except PyErr Batch) (fs1 : FS) (tr1 : List Ev) (seen : List String)
    (hw : DefaultStorageModule.write_files cn ok msg dir status fs =
      (r1, fs1, tr1)) :
    delete_after_write cacheP junkP archiveP seen tr1 = true := by
  apply daw_true_of_deletes
  intro p hp
  exfalso
  have hmem : Ev.delete p ∈
      (DefaultStorageModule.write_files cn ok msg dir status fs).2.2 := by
    rw [hw]; exact hp
  rcases write_files_trace_writes cn ok msg dir status fs _ hmem with ⟨b, hb⟩
  simp at hb

/-- A `clean_cache` trace passes the audit when every input record's
base name is already in the seen set. -/
theorem daw_cc_trace (cacheP junkP archiveP : String) (cn : CustomName)
    (wfb : Batch) (fs1 : FS) (r2 : Except PyErr Batch) (fs2 : FS)
    (tr2 : List Ev) (seen : List String)
    (hc : DefaultStorageModule.clean_cache_go cn cacheP wfb [] fs1 [] =
      (r2, fs2, tr2))
    (hbase : ∀ kv ∈ wfb, ∀ t0, recGet? kv.2 cn.timestamp_name = some t0 →
      (t0 ++ "_" ++ kv.1 ++ ".json") ∈ seen) :
    delete_after_write cacheP junkP archiveP seen tr2 = true := by
  apply daw_true_of_deletes
  intro p hp
  have hmem : Ev.delete p ∈
      (DefaultStorageModule.clean_cache_go cn cacheP wfb [] fs1 []).2.2 := by
    rw [hc]; exact hp
  rcases clean_cache_go_trace cn cacheP wfb [] fs1 [] _ hmem with h1 | h2
  · simp at h1
  · rcases h2 with ⟨kv, hkv, t0, hre, hpe⟩
    have hpq : p = ⟨cacheP, t0 ++ "_" ++ kv.1 ++ ".json"⟩ := by
      injection hpe
    rw [hpq]
    exact ⟨by simp, hbase kv hkv t0 hre⟩

/-- After a successful `_write_files` into the junk or archive
directory, the base names of all its records are in the accumulated
seen set of its trace. -/
theorem wf_bases_in_collect (junkP archiveP : String) (cn : CustomName)
    (ok : FPath → Bool) (msg : Batch) (dir status : String) (fs : FS)
    (wfb : Batch) (fs1 : FS) (tr : List Ev) (seen : List String)
    (hw : DefaultStorageModule.write_files cn ok msg dir status fs =
      (.ok wfb, fs1, tr))
    (hdir : (dir == junkP || dir == archiveP) = true) :
    ∀ kv ∈ wfb, ∀ t0, recGet? kv.2 cn.timestamp_name = some t0 →
      (t0 ++ "_" ++ kv.1 ++ ".json") ∈ collectDest junkP archiveP seen tr := by
  intro kv hkv t0 hre
  rw [DefaultStorageModule.write_files] at hw
  rcases write_files_go_ok_writes cn ok dir status msg [] fs [] wfb fs1 tr hw
    kv hkv with h1 | h2
  · simp at h1
  · rcases h2 with ⟨t1, hre1, hwmem⟩
    have ht : t1 = t0 := by
      rw [hre1] at hre
      exact Option.some.inj hre
    subst ht
    exact write_mem_collectDest junkP archiveP tr seen dir _ hwmem hdir

/-- C1: within one `store` call, a record's cache file is deleted only
after the corresponding junk or archive write has completed: scanning the
emitted file-system events left to right, every deletion names a file of
the resolved cache directory whose base name was already written to the
resolved junk or archive directory, for every configuration, batch,
date, write-failure oracle and starting file system. -/
theorem store_dest_write_before_cache_delete (cn : CustomName)
    (detail : StorageDetail) (ok : FPath → Bool) (today : String)
    (message : Batch) (fs : FS) (cacheP junkP archiveP : String)
    (hcache : DefaultStorageModule.test_dir detail.cache "" = .ok (some cacheP))
    (hdest : DefaultStorageModule.store_dest_paths detail today =
      some (junkP, archiveP)) :
    delete_after_write cacheP junkP archiveP []
      (DefaultStorageModule.store cn detail ok today message fs).2.2 = true := by
  unfold DefaultStorageModule.store_dest_paths at hdest
  cases ha : DefaultStorageModule.test_dir detail.archive today with
  | error e => rw [ha] at hdest; simp at hdest
  | ok aPath =>
  cases hj : DefaultStorageModule.test_dir detail.junk "" with
  | error e => rw [ha, hj] at hdest; simp at hdest
  | ok jPath =>
  rw [ha, hj] at hdest
  have hfall : DefaultStorageModule.junk_archive_fallback aPath jPath =
      some (junkP, archiveP) := hdest
  unfold DefaultStorageModule.store
  rw [hcache]
  dsimp only
  rw [ha]
  dsimp only
  rw [hj]
  dsimp only
  rw [hfall]
  dsimp only
  cases hp : DefaultStorageModule.partition_by_failed cn message with
  | error e =>
    rfl
  | ok pr =>
  obtain ⟨mfailed, m⟩ := pr
  dsimp only
  cases hw1 : DefaultStorageModule.write_files cn ok mfailed junkP "broken" fs with
  | mk r1 rest1 =>
  obtain ⟨fs1, tr1⟩ := rest1
  cases r1 with
  | error e1 =>
    exact daw_wf_trace cacheP junkP archiveP cn ok mfailed junkP "broken" fs
      _ fs1 tr1 [] hw1
  | ok wf =>
  dsimp only
  rw [clean_cache_eq_go cn detail wf fs1 cacheP hcache]
  have hdaw1 : delete_after_write cacheP junkP archiveP [] tr1 = true :=
    daw_wf_trace cacheP junkP archiveP cn ok mfailed junkP "broken" fs
      _ fs1 tr1 [] hw1
  cases hc2 : DefaultStorageModule.clean_cache_go cn cacheP wf [] fs1 [] with
  | mk r2 rest2 =>
  obtain ⟨fs2, tr2⟩ := rest2
  have hdaw2 : delete_after_write cacheP junkP archiveP
      (collectDest junkP archiveP [] tr1) tr2 = true :=
    daw_cc_trace cacheP junkP archiveP cn wf fs1 r2 fs2 tr2 _ hc2
      (wf_bases_in_collect junkP archiveP cn ok mfailed junkP "broken" fs
        wf fs1 tr1 [] hw1 (by simp))
  have hdaw12 : delete_after_write cacheP junkP archiveP [] (tr1 ++ tr2) = true := by
    rw [daw_append, hdaw1, hdaw2]
    rfl
  cases r2 with
  | error e2 =>
    exact hdaw12
  | ok u =>
  dsimp only
  cases hw3 : DefaultStorageModule.write_files cn ok m archiveP "done" fs2 with
  | mk r3 rest3 =>
  obtain ⟨fs3, tr3⟩ := rest3
  have hdaw3 : delete_after_write cacheP junkP archiveP
      (collectDest junkP archiveP [] (tr1 ++ tr2)) tr3 = true :=
    daw_wf_trace cacheP junkP archiveP cn ok m archiveP "done" fs2
      r3 fs3 tr3 _ hw3
  have hdaw123 : delete_after_write cacheP junkP archiveP []
      (tr1 ++ tr2 ++ tr3) = true := by
    rw [daw_append, hdaw12, hdaw3]
    rfl
  cases r3 with
  | error e3 =>
    exact hdaw123
  | ok m2 =>
  dsimp only
  rw [clean_cache_eq_go cn detail m2 fs3 cacheP hcache]
  cases hc4 : DefaultStorageModule.clean_cache_go cn cacheP m2 [] fs3 [] with
  | mk r4 rest4 =>
  obtain ⟨fs4, tr4⟩ := rest4
  have hbase4 : ∀ kv ∈ m2, ∀ t0, recGet? kv.2 cn.timestamp_name = some t0 →
      (t0 ++ "_" ++ kv.1 ++ ".json") ∈
        collectDest junkP archiveP [] (tr1 ++ tr2 ++ tr3) := by
    intro kv hkv t0 hre
    rw [DefaultStorageModule.write_files] at hw3
    rcases write_files_go_ok_writes cn ok archiveP "done" m [] fs2 [] m2 fs3
        tr3 hw3 kv hkv with h1 | h2
    · simp at h1
    · rcases h2 with ⟨t1, hre1, hwmem⟩
      have ht : t1 = t0 := by
        rw [hre1] at hre
        exact Option.some.inj hre
      subst ht
      exact write_mem_collectDest junkP archiveP (tr1 ++ tr2 ++ tr3) []
        archiveP _ (List.mem_append_right _ hwmem) (by simp)
  have hdaw4 : delete_after_write cacheP junkP archiveP
      (collectDest junkP archiveP [] (tr1 ++ tr2 ++ tr3)) tr4 = true :=
    daw_cc_trace cacheP junkP archiveP cn m2 fs3 r4 fs4 tr4 _ hc4 hbase4
  have hdaw1234 : delete_after_write cacheP junkP archiveP []
      (tr1 ++ tr2 ++ tr3 ++ tr4) = true := by
    rw [daw_append, hdaw123, hdaw4]
    rfl
  cases r4 with
  | error e4 =>
    exact hdaw1234
  | ok u4 =>
    exact hdaw1234

/-- A storage configuration with cache, junk and archive directories. -/
def detFull : StorageDetail :=
  { cache := some "/c", junk := some "/j", archive := some "/a" }

/-- A delivered record. -/
def recGood : Record := [("timestamp", "100"), ("value", "5"), ("bHstatus", "out")]

/-- A record the sink rejected. -/
def recFailed : Record :=
  [("timestamp", "101"), ("value", "6"), ("bHstatus", "failed")]

/-- The cache directory holding the two staged records. -/
def fsStaged : FS :=
  (DefaultStorageModule.write_cache cnDefault detFull okAll
    [("g", recGood), ("b", recFailed)] ⟨[]⟩).2.1

/-- Witness for `store_dest_write_before_cache_delete` at the full
configuration, one good and one failed record staged in the cache. -/
theorem store_dest_write_before_cache_delete_witness :
    delete_after_write "/c" "/j" "/a/2026/10/12" []
      (DefaultStorageModule.store cnDefault detFull okAll "2026/10/12"
        [("g", recGood), ("b", recFailed)] fsStaged).2.2 = true :=
  store_dest_write_before_cache_delete cnDefault detFull okAll "2026/10/12"
    [("g", recGood), ("b", recFailed)] fsStaged "/c" "/j" "/a/2026/10/12"
    rfl rfl
